import Mathlib

/-!
Verification development for `src/main.py` of the repository
`handoff-_openai-_agent-sdk`: a single straight-line script that loads an
API key, builds an OpenAI-compatible client and model handle for Gemini,
wires three agents plus one explicit `Handoff` object, invokes one blocking
`Runner.run_sync` call, and prints two lines.

The script is shallowly embedded as follows.

* Its module body becomes `run_script`, a pure function of the environment
  (the value `os.getenv("GEMINI_API_KEY")` returns after `load_dotenv()`,
  an `Option String`) and of the external framework's `Runner.run_sync`
  (a parameter of type `RunSync`, since that code lives outside this
  repository).  `run_script` returns an `Outcome`: either `ok` with the
  final bindings or `raised` with the propagated exception, in both cases
  together with the ordered trace of observable `Event`s the script
  performed up to that point.
* Each module-level construction (`external_client`, `model`,
  `billing_agent`, `refund_agent`, `my_schema`, `my_invoke_function`,
  `my_enable_func`, `refund_agent_handoff`, `main_agent`) becomes a Lean
  definition of the same name, parameterized by the API key where the
  Python binding transitively captures it.
* `rich.print(a, b)` joins its arguments with a single space on one line;
  it is modeled as an `Event.print` of the joined line.
* Python truthiness of `Optional[str]` (the `if not gemini_api_key:`
  guard) is a `match`: `None` and the empty string are falsy, every other
  string is truthy.
* The JSON schema produced by pydantic v2's `Model_refund.model_json_schema()`
  and the JSON-Schema validation the framework applies to a strict handoff
  payload are external-library behavior; they are modeled by
  `Model_refund.model_json_schema` and `validatePayload` below, faithful to
  JSON Schema object semantics (`type`, `required`, `properties`,
  `additionalProperties`).
-/

/-- JSON values, as needed to model the pydantic-generated schema and
handoff payloads. -/
inductive Json where
  | null
  | bool (b : Bool)
  | num (n : Int)
  | str (s : String)
  | arr (elems : List Json)
  | obj (fields : List (String × Json))

/-- Lookup in an insertion-ordered dictionary (Python `dict` access):
first binding of the key wins. -/
def lookupField (fields : List (String × Json)) (key : String) : Option Json :=
  match fields with
  | [] => none
  | (k, v) :: rest => if k = key then some v else lookupField rest key

/-- Python `d[key] = v` on an insertion-ordered dictionary: overwrite in
place if the key is present, otherwise append at the end. -/
def dictSet (fields : List (String × Json)) (key : String) (v : Json) :
    List (String × Json) :=
  match fields with
  | [] => [(key, v)]
  | (k, w) :: rest => if k = key then (key, v) :: rest else (k, w) :: dictSet rest key v

/-- Does a JSON value match a JSON-Schema `type` name? -/
def jsonTypeMatches (ty : String) (j : Json) : Bool :=
  match ty, j with
  | "object", Json.obj _ => true
  | "string", Json.str _ => true
  | "integer", Json.num _ => true
  | "boolean", Json.bool _ => true
  | "array", Json.arr _ => true
  | "null", Json.null => true
  | _, _ => false

namespace Model_refund

/-- The `properties` map of the schema pydantic v2 generates for
`class Model_refund(BaseModel): input: str` — a single string field named
`input`. -/
def properties : List (String × Json) :=
  [("input", Json.obj [("title", Json.str "Input"), ("type", Json.str "string")])]

/-- `Model_refund.model_json_schema()` (src/main.py line 86): the JSON
schema pydantic v2 produces for the model, as an insertion-ordered
dictionary. -/
def model_json_schema : List (String × Json) :=
  [("properties", Json.obj properties),
   ("required", Json.arr [Json.str "input"]),
   ("title", Json.str "Model_refund"),
   ("type", Json.str "object")]

end Model_refund

/-- The fields of `my_schema` (src/main.py lines 86-87): the pydantic
schema with `my_schema["additionalProperties"] = False` applied. -/
def my_schema_fields : List (String × Json) :=
  dictSet Model_refund.model_json_schema "additionalProperties" (Json.bool false)

/-- `my_schema` (src/main.py lines 86-87), as a JSON value. -/
def my_schema : Json :=
  Json.obj my_schema_fields

/-- The `properties` dictionary of an object schema (empty when absent or
malformed). -/
def schemaProperties (schema : Json) : List (String × Json) :=
  match schema with
  | Json.obj s =>
    match lookupField s "properties" with
    | some (Json.obj ps) => ps
    | _ => []
  | _ => []

/-- A top-level key of an object schema. -/
def schemaLookup (schema : Json) (key : String) : Option Json :=
  match schema with
  | Json.obj s => lookupField s key
  | _ => none

/-- Is every key of the payload's field list a declared property?  (The
`additionalProperties: false` check of JSON Schema.) -/
def allKeysDeclared (props : List (String × Json)) (fields : List (String × Json)) : Bool :=
  fields.all fun f => (lookupField props f.1).isSome

/-- Validation of a handoff payload against a flat object schema, as the
external framework applies it to a strict handoff input
(JSON Schema object semantics): the payload must match the schema's
`type`; every `required` name must be present; every declared property
that is present must match its declared `type`; and when
`additionalProperties` is `false`, every key of the payload must be a
declared property. -/
def validatePayload (schema : Json) (payload : Json) : Bool :=
  match schema with
  | Json.obj s =>
    let props := schemaProperties (Json.obj s)
    let typeOk :=
      match lookupField s "type" with
      | some (Json.str ty) => jsonTypeMatches ty payload
      | _ => true
    let requiredOk :=
      match lookupField s "required", payload with
      | some (Json.arr reqs), Json.obj fields =>
        reqs.all fun r =>
          match r with
          | Json.str nm => (lookupField fields nm).isSome
          | _ => true
      | _, _ => true
    let propsOk :=
      match payload with
      | Json.obj fields =>
        props.all fun p =>
          match lookupField fields p.1 with
          | some v =>
            (match p.2 with
             | Json.obj sub =>
               (match lookupField sub "type" with
                | some (Json.str ty) => jsonTypeMatches ty v
                | _ => true)
             | _ => true)
          | none => true
      | _ => true
    let additionalOk :=
      match lookupField s "additionalProperties", payload with
      | some (Json.bool false), Json.obj fields => allKeysDeclared props fields
      | _, _ => true
    typeOk && requiredOk && propsOk && additionalOk
  | _ => true

/-- The run context the framework passes to handoff callbacks
(`RunContextWrapper`); the script never reads it, so only its existence
matters. -/
structure RunContextWrapper where
  context : Json

/-- An observable step of the script's module body, in source order. -/
inductive Event where
  | load_dotenv
  | enable_verbose_stdout_logging
  | set_tracing_disabled
  | getenv (name : String)
  | construct_client (base_url : String)
  | construct_model (name : String)
  | construct_agent (name : String)
  | build_schema
  | construct_handoff (tool_name : String)
  | run_sync (input : String) (max_turns : Nat)
  | print (line : String)

/-- Construction of a network client, model handle, agent, or handoff
object. -/
def Event.isConstruction : Event → Bool
  | .construct_client _ => true
  | .construct_model _ => true
  | .construct_agent _ => true
  | .construct_handoff _ => true
  | _ => false

/-- The single blocking `Runner.run_sync` invocation. -/
def Event.isRun : Event → Bool
  | .run_sync _ _ => true
  | _ => false

/-- A console line emitted by the script itself. -/
def Event.isPrint : Event → Bool
  | .print _ => true
  | _ => false

/-- `AsyncOpenAI(api_key=..., base_url=...)` (src/main.py lines 39-42). -/
structure AsyncOpenAI where
  api_key : String
  base_url : String

/-- `OpenAIChatCompletionsModel(model=..., openai_client=...)`
(src/main.py lines 49-52). -/
structure OpenAIChatCompletionsModel where
  model : String
  openai_client : AsyncOpenAI

/-- The enable predicate stored in a `Handoff`, defunctionalized (the
script defines exactly one, `my_enable_func`); `applyEnable` gives its
semantics.  Defunctionalization keeps `Agent` strictly positive, since the
predicate consumes an `Agent`. -/
inductive EnableCallback where
  | my_enable_func_cb

mutual
/-- `Agent(name=..., instructions=..., model=..., handoffs=...,
handoff_description=...)`: an agent descriptor record.  `handoffs` and
`handoff_description` default to empty/absent at the construction sites
that omit them. -/
inductive Agent where
  | mk (name : String) (instructions : String)
       (model : OpenAIChatCompletionsModel)
       (handoffs : List HandoffItem)
       (handoff_description : Option String) : Agent

/-- An entry of an agent's `handoffs` list: the SDK accepts either a plain
`Agent` or an explicit `Handoff` object. -/
inductive HandoffItem where
  | ofAgent (a : Agent) : HandoffItem
  | ofHandoff (h : Handoff) : HandoffItem

/-- `Handoff(agent_name=..., tool_name=..., tool_description=...,
input_json_schema=..., on_invoke_handoff=..., strict_json_schema=...,
is_enabled=...)` (src/main.py lines 111-119).  The invocation callback is
stored as the actual function (returning the console lines it prints and
the delegate agent); the enable predicate is stored defunctionalized. -/
inductive Handoff where
  | mk (agent_name : String) (tool_name : String) (tool_description : String)
       (input_json_schema : Json)
       (on_invoke_handoff : RunContextWrapper → String → List Event × Agent)
       (strict_json_schema : Bool)
       (is_enabled : EnableCallback) : Handoff
end

def Agent.name : Agent → String
  | .mk n _ _ _ _ => n

def Agent.instructions : Agent → String
  | .mk _ i _ _ _ => i

def Agent.model : Agent → OpenAIChatCompletionsModel
  | .mk _ _ m _ _ => m

def Agent.handoffs : Agent → List HandoffItem
  | .mk _ _ _ hs _ => hs

def Agent.handoff_description : Agent → Option String
  | .mk _ _ _ _ d => d

def Handoff.agent_name : Handoff → String
  | .mk a _ _ _ _ _ _ => a

def Handoff.tool_name : Handoff → String
  | .mk _ t _ _ _ _ _ => t

def Handoff.tool_description : Handoff → String
  | .mk _ _ d _ _ _ _ => d

def Handoff.input_json_schema : Handoff → Json
  | .mk _ _ _ s _ _ _ => s

def Handoff.on_invoke_handoff : Handoff → (RunContextWrapper → String → List Event × Agent)
  | .mk _ _ _ _ f _ _ => f

def Handoff.strict_json_schema : Handoff → Bool
  | .mk _ _ _ _ _ b _ => b

def Handoff.is_enabled : Handoff → EnableCallback
  | .mk _ _ _ _ _ _ e => e

/-- The message of the exception raised when the credential is missing
(src/main.py line 32). -/
structure PyError where
  message : String
deriving DecidableEq

/-- `result` of `Runner.run_sync`: the script reads `final_output` and
`_last_agent.name` (the latter field is written `last_agent` here, Lean
identifiers aside). -/
structure RunResult where
  final_output : String
  last_agent : Agent

/-- The external framework's blocking `Runner.run_sync(agent, input,
max_turns)`: not code of this repository, so it is a parameter of the
embedded script — it either returns a `RunResult` or raises. -/
def RunSync : Type :=
  Agent → String → Nat → Except PyError RunResult

/-- How the module body ends: `ok` with the final bindings, or `raised`
with the uncaught exception; both record the ordered trace of events
performed before the end. -/
inductive Outcome (α : Type) where
  | ok (trace : List Event) (value : α)
  | raised (trace : List Event) (error : PyError)

/-- The trace of an outcome, however the script ended. -/
def traceOf {α : Type} : Outcome α → List Event
  | .ok tr _ => tr
  | .raised tr _ => tr

/-- `base_url` of the client (src/main.py line 41). -/
def gemini_base_url : String :=
  "https://generativelanguage.googleapis.com/v1beta/openai/"

/-- `external_client` (src/main.py lines 39-42), as a function of the
API key it captures. -/
def external_client (gemini_api_key : String) : AsyncOpenAI :=
  { api_key := gemini_api_key, base_url := gemini_base_url }

/-- `model` (src/main.py lines 49-52). -/
def model (gemini_api_key : String) : OpenAIChatCompletionsModel :=
  { model := "gemini-2.0-flash", openai_client := external_client gemini_api_key }

/-- `billing_agent` (src/main.py lines 59-64); `handoffs` is omitted at
this construction site, hence empty. -/
def billing_agent (gemini_api_key : String) : Agent :=
  Agent.mk "billing_agent"
    "You handle all billing-related inquiries. Provide clear and concise information regarding billing issues."
    (model gemini_api_key) []
    (some "You support the user in billing issues.")

/-- `refund_agent` (src/main.py lines 71-75); `handoffs` and
`handoff_description` are omitted at this construction site. -/
def refund_agent (gemini_api_key : String) : Agent :=
  Agent.mk "refund_agent"
    "You handle all refund-related processes. Assist users in processing refunds efficiently."
    (model gemini_api_key) [] none

/-- `my_invoke_function` (src/main.py lines 94-96): prints the received
payload with `rich.print("🚀 Received handoff input:", input)` and returns
`refund_agent`. -/
def my_invoke_function (gemini_api_key : String)
    (ctx : RunContextWrapper) (input : String) : List Event × Agent :=
  ([Event.print ("🚀 Received handoff input: " ++ input)], refund_agent gemini_api_key)

/-- `my_enable_func` (src/main.py lines 103-104): returns `True`. -/
def my_enable_func (ctx : RunContextWrapper) (agent : Agent) : Bool :=
  true

/-- Semantics of a defunctionalized enable predicate. -/
def applyEnable : EnableCallback → RunContextWrapper → Agent → Bool
  | .my_enable_func_cb, ctx, agent => my_enable_func ctx agent

/-- `refund_agent_handoff` (src/main.py lines 111-119). -/
def refund_agent_handoff (gemini_api_key : String) : Handoff :=
  Handoff.mk "refund_agent" "refund_agent"
    "You provide support to user on refund process."
    my_schema
    (my_invoke_function gemini_api_key)
    true
    EnableCallback.my_enable_func_cb

/-- `main_agent` (src/main.py lines 126-131); its `handoffs` list holds
`billing_agent` (a plain agent) and `refund_agent_handoff` (an explicit
handoff object). -/
def main_agent (gemini_api_key : String) : Agent :=
  Agent.mk "main_agent"
    "You always delegate tasks to the appropriate agent."
    (model gemini_api_key)
    [HandoffItem.ofAgent (billing_agent gemini_api_key),
     HandoffItem.ofHandoff (refund_agent_handoff gemini_api_key)]
    none

/-- The fixed `input` argument of `Runner.run_sync` (src/main.py line 140). -/
def scripted_input : String :=
  "hi, I have some refund issues, please call refund agent."

/-- The `max_turns` argument of `Runner.run_sync` (src/main.py line 141). -/
def max_turns_arg : Nat := 2

/-- The exception raised when the key is falsy (src/main.py line 32). -/
def key_error : PyError :=
  { message := "GEMINI_API_KEY is not set in .env file" }

/-- Events performed before the credential guard (src/main.py lines
21-30): `load_dotenv()`, `enable_verbose_stdout_logging()`,
`set_tracing_disabled(disabled=True)`, `os.getenv("GEMINI_API_KEY")`. -/
def init_trace : List Event :=
  [Event.load_dotenv, Event.enable_verbose_stdout_logging,
   Event.set_tracing_disabled, Event.getenv "GEMINI_API_KEY"]

/-- Events performed once the guard passes, through the last construction
(src/main.py lines 39-131), in source order.  The `def` statements for
`my_invoke_function` and `my_enable_func` only bind names (modeled by the
Lean definitions above) and add no event. -/
def construct_trace : List Event :=
  init_trace ++
    [Event.construct_client gemini_base_url,
     Event.construct_model "gemini-2.0-flash",
     Event.construct_agent "billing_agent",
     Event.construct_agent "refund_agent",
     Event.build_schema,
     Event.construct_handoff "refund_agent",
     Event.construct_agent "main_agent"]

/-- Events performed up to and including the `Runner.run_sync` call
(src/main.py lines 138-142). -/
def pre_run_trace : List Event :=
  construct_trace ++ [Event.run_sync scripted_input max_turns_arg]

/-- The full trace of a successful execution: the two `rich.print` lines
(src/main.py lines 145-146) follow the run. -/
def success_trace (res : RunResult) : List Event :=
  pre_run_trace ++
    [Event.print ("✅ Final output: " ++ res.final_output),
     Event.print ("🤖 Last agent name: " ++ res.last_agent.name)]

/-- The module-level bindings alive when the script ends successfully. -/
structure ScriptFinal where
  gemini_api_key : String
  external_client : AsyncOpenAI
  model : OpenAIChatCompletionsModel
  billing_agent : Agent
  refund_agent : Agent
  my_schema : Json
  refund_agent_handoff : Handoff
  main_agent : Agent
  result : RunResult

/-- The final bindings of a successful execution with key `k` and run
result `res`. -/
def final_state (k : String) (res : RunResult) : ScriptFinal :=
  { gemini_api_key := k
    external_client := external_client k
    model := model k
    billing_agent := billing_agent k
    refund_agent := refund_agent k
    my_schema := my_schema
    refund_agent_handoff := refund_agent_handoff k
    main_agent := main_agent k
    result := res }

/-- The module body of src/main.py.  `key` is what
`os.getenv("GEMINI_API_KEY")` returns after `load_dotenv()`; `run` is the
external `Runner.run_sync`.  The guard `if not gemini_api_key:` raises on
every falsy value, i.e. on `None` and on the empty string; otherwise the
script constructs the client, model, three agents and the handoff object
(the definitions above, in source order), performs the single blocking
run, and — only if the run returns — prints the two final lines.  An
exception from the run propagates unchanged: there is no `try` anywhere in
the script. -/
def run_script (key : Option String) (run : RunSync) : Outcome ScriptFinal :=
  match key with
  | none => Outcome.raised init_trace key_error
  | some k =>
    if k = "" then Outcome.raised init_trace key_error
    else
      match run (main_agent k) scripted_input max_turns_arg with
      | Except.error e => Outcome.raised pre_run_trace e
      | Except.ok res => Outcome.ok (success_trace res) (final_state k res)

/-- The events strictly after the `Runner.run_sync` invocation in a
trace. -/
def eventsAfterRun (tr : List Event) : List Event :=
  (tr.dropWhile fun e => !(Event.isRun e)).drop 1

/-- Fixture: a run result the external framework could return (used to
instantiate universally quantified theorems at a concrete input). -/
def witness_result : RunResult :=
  { final_output := "Your refund was processed.", last_agent := refund_agent "k" }

/-- Fixture: an external `Runner.run_sync` that returns successfully. -/
def witness_run_ok : RunSync :=
  fun _ _ _ => Except.ok witness_result

/-- Fixture: an external `Runner.run_sync` that raises. -/
def witness_run_err : RunSync :=
  fun _ _ _ => Except.error { message := "boom" }

/-- Fixture: a handoff payload carrying a key other than `input`. -/
def extra_payload : List (String × Json) :=
  [("input", Json.str "refund please"), ("reason", Json.str "late delivery")]

/-- If some element of a list falsifies a boolean predicate, `List.all` is
`false`. -/
theorem all_eq_false_of_mem {α : Type} {l : List α} {p : α → Bool} (x : α)
    (hx : x ∈ l) (hp : p x = false) : l.all p = false := by
  cases hall : l.all p with
  | false => rfl
  | true =>
    have := List.all_eq_true.mp hall x hx
    rw [hp] at this
    exact absurd this (by simp)

/-- Looking up any key other than `input` in the declared properties of
`Model_refund` yields nothing. -/
theorem lookup_properties_ne_input (key : String) (h : key ≠ "input") :
    lookupField Model_refund.properties key = none := by
  have h1 : ¬ ("input" = key) := fun hh => h hh.symm
  simp [Model_refund.properties, lookupField, h1]

/-- Claim C1: with `GEMINI_API_KEY` absent after loading the `.env` file,
the script raises the exception "GEMINI_API_KEY is not set in .env file"
having performed only the four pre-guard steps; in particular no network
client, model handle, agent, or handoff object is constructed, no run
happens, and nothing is printed. -/
theorem missing_key_aborts_before_construction (run : RunSync) :
    run_script none run = Outcome.raised init_trace key_error
    ∧ key_error.message = "GEMINI_API_KEY is not set in .env file"
    ∧ init_trace.all (fun e => !(e.isConstruction || e.isRun || e.isPrint)) = true :=
  ⟨rfl, rfl, rfl⟩

/-- Claim C9: the guard `if not gemini_api_key:` tests Python truthiness,
so the absent key and the empty-string key both raise the same exception
at the same point, before any construction. -/
theorem falsy_key_aborts (run : RunSync) :
    run_script none run = Outcome.raised init_trace key_error
    ∧ run_script (some "") run = Outcome.raised init_trace key_error :=
  ⟨rfl, by simp [run_script]⟩

/-- Claim C3: for every run context and every input string,
`my_invoke_function` prints the received payload and returns the
`refund_agent` object; it is exactly the callback stored in
`refund_agent_handoff`, so the resolved delegate is the same fixed target
regardless of the input text. -/
theorem invoke_callback_returns_refund_agent (k : String)
    (ctx : RunContextWrapper) (input : String) :
    my_invoke_function k ctx input
      = ([Event.print ("🚀 Received handoff input: " ++ input)], refund_agent k)
    ∧ (my_invoke_function k ctx input).2 = refund_agent k
    ∧ (refund_agent_handoff k).on_invoke_handoff = my_invoke_function k :=
  ⟨rfl, rfl, rfl⟩

/-- Claim C4: for every run context and every agent argument the enable
predicate `my_enable_func` returns `true`; it is the predicate stored in
`refund_agent_handoff`, so the handoff is enabled unconditionally. -/
theorem enable_predicate_always_true (k : String)
    (ctx : RunContextWrapper) (agent : Agent) :
    my_enable_func ctx agent = true
    ∧ applyEnable (refund_agent_handoff k).is_enabled ctx agent = true :=
  ⟨rfl, rfl⟩

/-- Claim C7: with a truthy key and a successful run, the script executes
as exactly the fixed linear sequence — load credentials, construct the API
client, construct the model handle, construct the agent/handoff objects,
one blocking run, then the two prints — each step exactly once, in source
order. -/
theorem script_is_linear_fixed_order (k : String) (run : RunSync) (res : RunResult)
    (hk : k ≠ "")
    (hrun : run (main_agent k) scripted_input max_turns_arg = Except.ok res) :
    run_script (some k) run = Outcome.ok (success_trace res) (final_state k res)
    ∧ success_trace res =
      [Event.load_dotenv, Event.enable_verbose_stdout_logging,
       Event.set_tracing_disabled, Event.getenv "GEMINI_API_KEY",
       Event.construct_client gemini_base_url,
       Event.construct_model "gemini-2.0-flash",
       Event.construct_agent "billing_agent", Event.construct_agent "refund_agent",
       Event.build_schema, Event.construct_handoff "refund_agent",
       Event.construct_agent "main_agent",
       Event.run_sync scripted_input max_turns_arg,
       Event.print ("✅ Final output: " ++ res.final_output),
       Event.print ("🤖 Last agent name: " ++ res.last_agent.name)] := by
  refine ⟨?_, rfl⟩
  simp only [run_script, if_neg hk, hrun]

/-- Witness for C7 at a concrete key and a concrete successful run. -/
theorem script_is_linear_fixed_order_witness :
    run_script (some "k") witness_run_ok
      = Outcome.ok (success_trace witness_result) (final_state "k" witness_result)
    ∧ success_trace witness_result =
      [Event.load_dotenv, Event.enable_verbose_stdout_logging,
       Event.set_tracing_disabled, Event.getenv "GEMINI_API_KEY",
       Event.construct_client gemini_base_url,
       Event.construct_model "gemini-2.0-flash",
       Event.construct_agent "billing_agent", Event.construct_agent "refund_agent",
       Event.build_schema, Event.construct_handoff "refund_agent",
       Event.construct_agent "main_agent",
       Event.run_sync scripted_input max_turns_arg,
       Event.print ("✅ Final output: " ++ witness_result.final_output),
       Event.print ("🤖 Last agent name: " ++ witness_result.last_agent.name)] :=
  script_is_linear_fixed_order "k" witness_run_ok witness_result (by decide) rfl

/-- Claim C5: after the single run completes successfully, the script
prints exactly two lines: the events strictly after the run invocation are
exactly one line reporting the final response text and one reporting the
name of the agent that last handled the exchange. -/
theorem exactly_two_lines_after_run (k : String) (run : RunSync) (res : RunResult)
    (hk : k ≠ "")
    (hrun : run (main_agent k) scripted_input max_turns_arg = Except.ok res) :
    run_script (some k) run = Outcome.ok (success_trace res) (final_state k res)
    ∧ eventsAfterRun (success_trace res) =
        [Event.print ("✅ Final output: " ++ res.final_output),
         Event.print ("🤖 Last agent name: " ++ res.last_agent.name)]
    ∧ (eventsAfterRun (success_trace res)).length = 2
    ∧ (eventsAfterRun (success_trace res)).all Event.isPrint = true := by
  refine ⟨?_, rfl, rfl, rfl⟩
  simp only [run_script, if_neg hk, hrun]

/-- Witness for C5 at a concrete key and a concrete successful run. -/
theorem exactly_two_lines_after_run_witness :
    run_script (some "k") witness_run_ok
      = Outcome.ok (success_trace witness_result) (final_state "k" witness_result)
    ∧ eventsAfterRun (success_trace witness_result) =
        [Event.print ("✅ Final output: " ++ witness_result.final_output),
         Event.print ("🤖 Last agent name: " ++ witness_result.last_agent.name)]
    ∧ (eventsAfterRun (success_trace witness_result)).length = 2
    ∧ (eventsAfterRun (success_trace witness_result)).all Event.isPrint = true :=
  exactly_two_lines_after_run "k" witness_run_ok witness_result (by decide) rfl

/-- Claim C8: the agent descriptor records are constructed once and the
script never mutates them: in the bindings alive after the run and the two
prints, `billing_agent`, `refund_agent` and `main_agent` are exactly the
construction-time records, and each record's `name`, `instructions`,
`model` and `handoffs` fields still hold their construction-time values. -/
theorem agent_records_never_mutated (k : String) (run : RunSync) (res : RunResult)
    (hk : k ≠ "")
    (hrun : run (main_agent k) scripted_input max_turns_arg = Except.ok res) :
    run_script (some k) run = Outcome.ok (success_trace res) (final_state k res)
    ∧ (final_state k res).billing_agent = billing_agent k
    ∧ (final_state k res).refund_agent = refund_agent k
    ∧ (final_state k res).main_agent = main_agent k
    ∧ (billing_agent k).name = "billing_agent"
    ∧ (billing_agent k).instructions
        = "You handle all billing-related inquiries. Provide clear and concise information regarding billing issues."
    ∧ (billing_agent k).model = model k
    ∧ (billing_agent k).handoffs = []
    ∧ (refund_agent k).name = "refund_agent"
    ∧ (refund_agent k).instructions
        = "You handle all refund-related processes. Assist users in processing refunds efficiently."
    ∧ (refund_agent k).model = model k
    ∧ (refund_agent k).handoffs = []
    ∧ (main_agent k).name = "main_agent"
    ∧ (main_agent k).instructions
        = "You always delegate tasks to the appropriate agent."
    ∧ (main_agent k).model = model k
    ∧ (main_agent k).handoffs
        = [HandoffItem.ofAgent (billing_agent k),
           HandoffItem.ofHandoff (refund_agent_handoff k)] := by
  refine ⟨?_, rfl, rfl, rfl, rfl, rfl, rfl, rfl, rfl, rfl, rfl, rfl, rfl, rfl, rfl, rfl⟩
  simp only [run_script, if_neg hk, hrun]

/-- Witness for C8 at a concrete key and a concrete successful run. -/
theorem agent_records_never_mutated_witness :
    run_script (some "k") witness_run_ok
      = Outcome.ok (success_trace witness_result) (final_state "k" witness_result)
    ∧ (final_state "k" witness_result).billing_agent = billing_agent "k"
    ∧ (final_state "k" witness_result).refund_agent = refund_agent "k"
    ∧ (final_state "k" witness_result).main_agent = main_agent "k"
    ∧ (billing_agent "k").name = "billing_agent"
    ∧ (billing_agent "k").instructions
        = "You handle all billing-related inquiries. Provide clear and concise information regarding billing issues."
    ∧ (billing_agent "k").model = model "k"
    ∧ (billing_agent "k").handoffs = []
    ∧ (refund_agent "k").name = "refund_agent"
    ∧ (refund_agent "k").instructions
        = "You handle all refund-related processes. Assist users in processing refunds efficiently."
    ∧ (refund_agent "k").model = model "k"
    ∧ (refund_agent "k").handoffs = []
    ∧ (main_agent "k").name = "main_agent"
    ∧ (main_agent "k").instructions
        = "You always delegate tasks to the appropriate agent."
    ∧ (main_agent "k").model = model "k"
    ∧ (main_agent "k").handoffs
        = [HandoffItem.ofAgent (billing_agent "k"),
           HandoffItem.ofHandoff (refund_agent_handoff "k")] :=
  agent_records_never_mutated "k" witness_run_ok witness_result (by decide) rfl

/-- Claim C6: when the run raises, the exception propagates out of the
script unchanged — the script ends `raised` with the very same error, its
trace contains the single run invocation (so no retry) and no print, and
nothing after the run executes. -/
theorem run_failure_propagates_unhandled (k : String) (run : RunSync) (e : PyError)
    (hk : k ≠ "")
    (hrun : run (main_agent k) scripted_input max_turns_arg = Except.error e) :
    run_script (some k) run = Outcome.raised pre_run_trace e
    ∧ pre_run_trace.filter Event.isRun = [Event.run_sync scripted_input max_turns_arg]
    ∧ pre_run_trace.all (fun ev => !(Event.isPrint ev)) = true := by
  refine ⟨?_, rfl, rfl⟩
  simp only [run_script, if_neg hk, hrun]

/-- Witness for C6 at a concrete key and a concrete failing run. -/
theorem run_failure_propagates_unhandled_witness :
    run_script (some "k") witness_run_err
      = Outcome.raised pre_run_trace { message := "boom" }
    ∧ pre_run_trace.filter Event.isRun = [Event.run_sync scripted_input max_turns_arg]
    ∧ pre_run_trace.all (fun ev => !(Event.isPrint ev)) = true :=
  run_failure_propagates_unhandled "k" witness_run_err { message := "boom" }
    (by decide) rfl

/-- Claim C10: the single blocking run is invoked with `max_turns = 2`:
whatever the external run returns, the script's trace contains exactly one
run event, carrying the fixed input string and the turn bound 2. -/
theorem run_invoked_with_max_turns_two (k : String) (run : RunSync) (hk : k ≠ "") :
    max_turns_arg = 2
    ∧ (traceOf (run_script (some k) run)).filter Event.isRun
        = [Event.run_sync scripted_input 2] := by
  refine ⟨rfl, ?_⟩
  cases hrun : run (main_agent k) scripted_input max_turns_arg with
  | error e =>
    simp only [run_script, if_neg hk, hrun, traceOf]
    rfl
  | ok res =>
    simp only [run_script, if_neg hk, hrun, traceOf]
    rfl

/-- Witness for C10 at a concrete key and a concrete run. -/
theorem run_invoked_with_max_turns_two_witness :
    max_turns_arg = 2
    ∧ (traceOf (run_script (some "k") witness_run_ok)).filter Event.isRun
        = [Event.run_sync scripted_input 2] :=
  run_invoked_with_max_turns_two "k" witness_run_ok (by decide)

/-- Claim C2: `my_schema` declares exactly one property — the string field
`input` — and carries `additionalProperties: false`; consequently every
handoff payload object containing any key other than `input` fails
validation against it. -/
theorem schema_rejects_extra_properties (fields : List (String × Json))
    (key : String) (v : Json) (hmem : (key, v) ∈ fields) (hkey : key ≠ "input") :
    schemaProperties my_schema
      = [("input", Json.obj [("title", Json.str "Input"), ("type", Json.str "string")])]
    ∧ schemaLookup my_schema "additionalProperties" = some (Json.bool false)
    ∧ validatePayload my_schema (Json.obj fields) = false := by
  refine ⟨rfl, rfl, ?_⟩
  have hlook : lookupField Model_refund.properties key = none :=
    lookup_properties_ne_input key hkey
  have hadd : allKeysDeclared Model_refund.properties fields = false := by
    unfold allKeysDeclared
    exact all_eq_false_of_mem (key, v) hmem (by simp [hlook])
  have h1 : lookupField my_schema_fields "type" = some (Json.str "object") := rfl
  have h2 : lookupField my_schema_fields "required"
      = some (Json.arr [Json.str "input"]) := rfl
  have h3 : lookupField my_schema_fields "additionalProperties"
      = some (Json.bool false) := rfl
  have h4 : schemaProperties (Json.obj my_schema_fields) = Model_refund.properties := rfl
  simp only [validatePayload, my_schema, h1, h2, h3, h4, hadd, Bool.and_false]

/-- Witness for C2: the payload `{"input": ..., "reason": ...}` carries
the extra key `reason` and is rejected. -/
theorem schema_rejects_extra_properties_witness :
    schemaProperties my_schema
      = [("input", Json.obj [("title", Json.str "Input"), ("type", Json.str "string")])]
    ∧ schemaLookup my_schema "additionalProperties" = some (Json.bool false)
    ∧ validatePayload my_schema (Json.obj extra_payload) = false :=
  schema_rejects_extra_properties extra_payload "reason" (Json.str "late delivery")
    (List.Mem.tail _ (List.Mem.head _)) (by decide)
